import Mathlib

/-!
Verification development for `accounting_bot.py` (repository `hesabdari`),
a Telegram personal-accounting bot.  The Python handlers are embedded as
pure Lean functions: conversation handlers become functions from the
incoming message text, the per-user scratch mapping (`context.user_data`),
and the two record stores to an explicit step result; the SQLite-backed
stores become Lean lists; `decimal.Decimal` values become an explicit
datatype with rational, NaN and infinity cases; Python exceptions that can
escape a handler become an explicit `exc` field of the result.
-/

namespace Hesabdari

/-- Value of a Python `decimal.Decimal`: a rational number, a NaN, or a
signed infinity (`neg = true` for negative infinity). -/
inductive PyDec where
  | num (q : ℚ)
  | nan
  | inf (neg : Bool)
  deriving DecidableEq, Repr

/-- True for an ASCII digit character. -/
def isDigitChar (c : Char) : Bool := '0' ≤ c && c ≤ '9'

/-- Numeric value of a string of ASCII digit characters, most significant
digit first. -/
def digitsVal (ds : List Char) : ℕ := ds.foldl (fun a c => 10 * a + (c.toNat - 48)) 0

/-- Mantissa part of CPython's decimal numeric-string grammar:
`digits [. digits] | . digits`.  Returns the digit value, the number of
digits after the point, and the unconsumed remainder (a possible exponent
part). -/
def parseMantissa (cs : List Char) : Option (ℕ × ℕ × List Char) :=
  let (ip, rest) := cs.span isDigitChar
  match rest with
  | '.' :: rest2 =>
    let (fp, rest3) := rest2.span isDigitChar
    if ip.isEmpty && fp.isEmpty then none
    else some (digitsVal (ip ++ fp), fp.length, rest3)
  | _ => if ip.isEmpty then none else some (digitsVal ip, 0, rest)

/-- Rational value of a decimal literal with mantissa digit value `m`,
`fracLen` digits after the point, sign `neg` and exponent `e`:
±m × 10 ^ (e − fracLen). -/
def decValue (neg : Bool) (m : ℕ) (fracLen : ℕ) (e : ℤ) : ℚ :=
  let n : ℤ := if neg then -(m : ℤ) else (m : ℤ)
  let k : ℤ := e - (fracLen : ℤ)
  if 0 ≤ k then mkRat (n * ((10 ^ k.toNat : ℕ) : ℤ)) 1 else mkRat n (10 ^ (-k).toNat)

/-- Exponent part of the decimal numeric-string grammar:
empty, or `(e|E) [sign] digits` consuming the whole remainder. -/
def parseExpPart (cs : List Char) : Option ℤ :=
  match cs with
  | [] => some 0
  | c :: rest =>
    if c = 'e' ∨ c = 'E' then
      let signRest : Bool × List Char :=
        match rest with
        | '+' :: t => (false, t)
        | '-' :: t => (true, t)
        | t => (false, t)
      let (ds, rest3) := signRest.2.span isDigitChar
      if ds.isEmpty ∨ ¬ rest3.isEmpty then none
      else some (if signRest.1 then -(digitsVal ds : ℤ) else (digitsVal ds : ℤ))
    else none

/-- Case-fold a character the way Lean's `Char.toLower` does (ASCII).  Used
to model Python's `str.lower()`; every literal token compared against in the
source is unaffected by non-ASCII case folding. -/
def lowerChars (cs : List Char) : List Char := cs.map Char.toLower

/-- NaN tail of the decimal grammar: `nan` or `snan`, each optionally
followed by diagnostic digits (compared case-insensitively). -/
def isNanChars (cs : List Char) : Bool :=
  match lowerChars cs with
  | 'n' :: 'a' :: 'n' :: d => d.all isDigitChar
  | 's' :: 'n' :: 'a' :: 'n' :: d => d.all isDigitChar
  | _ => false

/-- Infinity tail of the decimal grammar: `inf` or `infinity`,
case-insensitive. -/
def isInfChars (cs : List Char) : Bool :=
  lowerChars cs = ['i', 'n', 'f'] || lowerChars cs = ['i', 'n', 'f', 'i', 'n', 'i', 't', 'y']

/-- Body of `decimal.Decimal(str)` after preprocessing: optional sign, then
a NaN form, an infinity form, or a numeric mantissa with optional exponent.
Returns `none` when the string is not a valid decimal literal (CPython
raises `decimal.InvalidOperation` there). -/
def pyDecimalOfChars (cs : List Char) : Option PyDec :=
  let signBody : Bool × List Char :=
    match cs with
    | '+' :: t => (false, t)
    | '-' :: t => (true, t)
    | t => (false, t)
  let neg := signBody.1
  let body := signBody.2
  if isNanChars body then some .nan
  else if isInfChars body then some (.inf neg)
  else
    match parseMantissa body with
    | none => none
    | some (m, fracLen, rest) =>
      match parseExpPart rest with
      | none => none
      | some e => some (.num (decValue neg m fracLen e))

/-- Python `s.strip()`: remove leading and trailing whitespace characters
(modelled with `Char.isWhitespace`, which covers the ASCII whitespace all
considered inputs use). -/
def pyStrip (s : String) : String :=
  String.mk (((s.data.dropWhile Char.isWhitespace).reverse.dropWhile Char.isWhitespace).reverse)

/-- Python `decimal.Decimal(s)` for a string argument: per the CPython
documentation, leading and trailing whitespace characters as well as
underscores throughout are removed, then the decimal numeric-string grammar
is applied.  `none` models the `decimal.InvalidOperation` raised on a
malformed literal. -/
def pyDecimal (s : String) : Option PyDec :=
  pyDecimalOfChars ((pyStrip s).data.filter (fun c => c ≠ '_'))

/-- Python `x <= 0` for a Decimal `x`: `none` models the
`decimal.InvalidOperation` raised when comparing a NaN; otherwise the
boolean result (negative infinity compares `≤ 0`, positive infinity does
not). -/
def pyLeZero : PyDec → Option Bool
  | .nan => none
  | .inf neg => some neg
  | .num q => some (decide (q ≤ 0))

/-- Python `int(d)` for a Decimal `d`: truncation toward zero.  `none`
models the exception raised on NaN or infinity. -/
def pyIntOfDec : PyDec → Option ℤ
  | .num q => some (q.num.tdiv (q.den : ℤ))
  | _ => none

/-- Python Decimal addition (used by `sum`).  CPython raises
`InvalidOperation` for `∞ + (-∞)`; the claims below only ever add finite
values, so that case is folded into `nan`. -/
def pyAdd : PyDec → PyDec → PyDec
  | .nan, _ => .nan
  | _, .nan => .nan
  | .inf b, .inf c => if b = c then .inf b else .nan
  | .inf b, .num _ => .inf b
  | .num _, .inf c => .inf c
  | .num a, .num b => .num (a + b)

/-- Python Decimal negation. -/
def pyNeg : PyDec → PyDec
  | .nan => .nan
  | .inf b => .inf (!b)
  | .num a => .num (-a)

/-- Python Decimal subtraction. -/
def pySub (a b : PyDec) : PyDec := pyAdd a (pyNeg b)

/-- Python `sum(...)` over Decimals: left fold of addition starting from
the integer `0`. -/
def pySum (l : List PyDec) : PyDec := l.foldl pyAdd (.num 0)

/-- True when a Decimal value is finite (neither NaN nor infinity). -/
def PyDec.isFinite : PyDec → Bool
  | .num _ => true
  | _ => false

/-- Rational value of a finite Decimal (`0` on the non-finite cases, which
the lemmas using it always exclude). -/
def PyDec.toRat : PyDec → ℚ
  | .num q => q
  | _ => 0

/-- Python `int(s)` for a string: optional surrounding whitespace, optional
sign, then one or more ASCII digits.  `none` models the `ValueError` raised
otherwise.  (Underscores between digits, which `int` also accepts, are not
used by any input considered here.) -/
def pyIntParse (s : String) : Option ℤ :=
  let cs := (pyStrip s).data
  let signBody : Bool × List Char :=
    match cs with
    | '+' :: t => (false, t)
    | '-' :: t => (true, t)
    | t => (false, t)
  let (ds, rest) := signBody.2.span isDigitChar
  if ds.isEmpty ∨ ¬ rest.isEmpty then none
  else some (if signBody.1 then -(digitsVal ds : ℤ) else (digitsVal ds : ℤ))

/-- Python `s.lower()` restricted to ASCII case folding (character-wise
`Char.toLower`), which is exact for every token the source compares
against. -/
def pyLower (s : String) : String := String.mk (s.data.map Char.toLower)

/-- Insert a comma after every third character of a reversed digit list,
implementing the grouping of Python's format specifier `{:,}`. -/
def commaRev : List Char → List Char
  | a :: b :: c :: d :: rest => a :: b :: c :: ',' :: commaRev (d :: rest)
  | l => l

/-- Python `f"{n:,}"` for an integer `n`: decimal digits grouped in threes
by commas, preceded by a minus sign when negative. -/
def formatIntComma (n : ℤ) : String :=
  (if n < 0 then "-" else "") ++ String.mk (commaRev (toString n.natAbs).data.reverse).reverse

/-- Source `format_currency` (lines 77-82): truncate the Decimal amount to
an integer with `int`, group with commas, append the currency word.
`none` models the exception `int` raises on a NaN or infinite amount. -/
def format_currency (amount : PyDec) : Option String :=
  (pyIntOfDec amount).map (fun n => formatIntComma n ++ " تومان")

/-- Source `get_solar_date` (lines 84-91) converts a timestamp to a Solar
(Persian) calendar string through the external `jdatetime` library.  The
spec treats calendar conversion as an external pure function of the stored
timestamp, so it is modelled as an injective stand-in on abstract
timestamps. -/
def get_solar_date (date : ℕ) : String := "solar " ++ toString date

/-- Row of the `transactions` table (source lines 46-54).  `amount` is a
`Numeric` column holding the entered Decimal; `date` is an abstract
timestamp (`DateTime`, totally ordered) defaulting to insertion time;
`user_id` is the Telegram user id of the owner. -/
structure Transaction where
  id : ℕ
  amount : PyDec
  description : String
  is_income : Bool
  date : ℕ
  user_id : ℤ
  deriving DecidableEq, Repr

/-- Row of the `debts` table (source lines 56-65).  `debtor_id` is the
3-character natural code with a unique constraint; `description` is
nullable. -/
structure Debt where
  id : ℕ
  debtor_id : String
  debtor_name : String
  amount : PyDec
  description : Option String
  date : ℕ
  user_id : ℤ
  deriving DecidableEq, Repr

/-- Conversation states of the handler (source line 72): `idle` stands for
no active conversation (`ConversationHandler.END`), the rest are the eight
named states `AMOUNT .. DELETE_DEBT`. -/
inductive ConvState where
  | idle
  | amount
  | description
  | confirm
  | debtorName
  | debtAmount
  | debtDescription
  | debtConfirm
  | deleteDebt
  deriving DecidableEq, Repr

/-- Per-user scratch mapping `context.user_data`.  Each field is `none`
when the corresponding key is absent.  `debt_description` is doubly
optional: the key may be absent, and its stored value may be `None`
(description skipped). -/
structure Scratch where
  is_income : Option Bool := none
  amount : Option PyDec := none
  description : Option String := none
  debtor_name : Option String := none
  debtor_id : Option String := none
  debt_amount : Option PyDec := none
  debt_description : Option (Option String) := none
  deriving DecidableEq, Repr

/-- The empty scratch mapping of a fresh session. -/
def Scratch.empty : Scratch := {}

/-- The three reply keyboards / menus the bot re-shows (source
`show_main_menu`, `show_edit_menu`, `show_debtors_menu`). -/
inductive Menu where
  | main
  | edit
  | debtors
  deriving DecidableEq, Repr

/-- One displayed line block of the summary (source lines 358-365): the
f-string interpolates the transaction id, the direction glyph (💰 for
income, 💸 for expense), `format_currency` of the amount, the description,
and `get_solar_date` of the date. -/
structure SummaryEntry where
  id : ℕ
  glyphIncome : Bool
  amount : PyDec
  description : String
  solarDate : String
  deriving DecidableEq, Repr

/-- One displayed block of the debt list (source lines 605-616). -/
structure DebtEntry where
  debtor_name : String
  debtor_id : String
  amount : PyDec
  solarDate : String
  description : Option String
  deriving DecidableEq, Repr

/-- Outbound replies, one constructor per `reply_text` call in the source,
carrying exactly the values the corresponding f-string interpolates.
Notably `txSaved` (source lines 310-315) interpolates the transaction
type, the formatted amount, the description and the solar date — the
created transaction's id is not part of that f-string. -/
inductive Msg where
  | opCancelled
  | menuPrompt (m : Menu)
  | askAmount (income : Bool)
  | askDescription
  | invalidNumber
  | confirmTx (income : Bool) (amountText desc solarToday : String)
  | txCancelled
  | txSaved (income : Bool) (amountText desc solarDate : String)
  | txSaveError
  | noTransactions
  | summaryReport (totalIncome totalExpenses balance : PyDec) (entries : List SummaryEntry)
  | missingTrIdArg (forDeletion : Bool)
  | trIdNotNumeric
  | delTrSuccess (id : ℕ) (income : Bool) (amountText desc : String)
  | delTrNotFound
  | noTxToDelete
  | delAllDone (count : ℕ)
  | askDebtorName
  | debtorInfoAskAmount (name code : String)
  | askDebtDescription
  | invalidDebtNumber
  | confirmDebt (name code amountText : String) (desc : Option String) (solarToday : String)
  | debtCancelled
  | debtSaved (code name amountText solarDate : String) (desc : Option String)
  | debtSaveError
  | noDebts
  | debtListReport (totalText : String) (entries : List DebtEntry)
  | askDebtCode
  | debtDeleted (code name amountText solarDate : String)
  | debtNotFound
  | debtDeleteError
  deriving DecidableEq, Repr

/-- Python exceptions that can escape a handler uncaught. -/
inductive PyErr where
  | invalidOperation
  | keyError
  | overflowError
  deriving DecidableEq, Repr

/-- Result of delivering one text message to a conversation handler.
`msgs` are the replies sent, `logs` the `logger.error` calls, `exc` a
Python exception that escaped the handler (in which case the framework
keeps the previous conversation state), and `diverged` marks a handler
that never returns. -/
structure StepOut where
  state : ConvState
  ud : Scratch
  txs : List Transaction
  debts : List Debt
  msgs : List Msg
  logs : List String := []
  exc : Option PyErr := none
  diverged : Bool := false
  deriving DecidableEq, Repr

/-- One random draw of the debtor-id generator: `random.choice` over the 26
lowercase letters and two `random.randint(1, 9)` draws. -/
abbrev Draw := Fin 26 × Fin 9 × Fin 9

/-- Ambient data of one handler invocation: the requesting user's id, the
current time, the ids the autoincrement columns would assign next, and the
stream of random draws available to the debtor-id generator. -/
structure Env where
  uid : ℤ
  now : ℕ
  nextTid : ℕ
  nextDid : ℕ
  draws : List Draw
  deriving Repr

/-- The 26 lowercase ASCII letters, the alphabet of `string.ascii_lowercase`
sampled by the generator. -/
def letterChars : List Char :=
  ['a', 'b', 'c', 'd', 'e', 'f', 'g', 'h', 'i', 'j', 'k', 'l', 'm',
   'n', 'o', 'p', 'q', 'r', 's', 't', 'u', 'v', 'w', 'x', 'y', 'z']

/-- The nine digit characters produced by `str(random.randint(1, 9))`. -/
def digitChars : List Char := ['1', '2', '3', '4', '5', '6', '7', '8', '9']

/-- Candidate code built from one draw: `f"{letter}{numbers}"` (source
line 109), one letter followed by two digit characters. -/
def codeOfDraw (d : Draw) : String :=
  String.mk [letterChars.getD d.1.val 'a', digitChars.getD d.2.1.val '1',
    digitChars.getD d.2.2.val '1']

/-- Decides membership in the regular language `^[a-z][1-9]{2}$`: exactly
three characters, a lowercase ASCII letter followed by two digits 1-9. -/
def validCode (s : String) : Bool :=
  match s.data with
  | [a, b, c] => letterChars.contains a && digitChars.contains b && digitChars.contains c
  | _ => false

/-- Source `generate_debtor_id` (lines 93-111): read the snapshot of all
existing codes (done by the caller and passed as `existing`), then draw
candidates until one is not in the snapshot.  The unbounded `while True`
loop is modelled on the prefix `draws` of the random stream: `none` means
the loop was still running after consuming every modelled draw. -/
def generate_debtor_id (draws : List Draw) (existing : List String) : Option String :=
  match draws with
  | [] => none
  | d :: rest =>
    let new_id := codeOfDraw d
    if existing.contains new_id then generate_debtor_id rest existing else some new_id

/-- Cancellation tokens checked (against the lowercased text) at the top of
every multi-step handler (e.g. source line 231). -/
def cancelTokens : List String := ["/cancel", "لغو", "cancel", "❌ لغو"]

/-- Affirmative tokens accepted by the two confirmation handlers (source
lines 290 and 549), compared against the lowercased text. -/
def affirmTokens : List String := ["بله", "yes", "y", "✅ بله"]

/-- Skip tokens of the optional debt description (source line 518),
compared against the raw text. -/
def skipTokens : List String := ["⏭️ رد کردن", "رد کردن", "skip"]

/-- True when the lowercased text is one of the cancellation tokens. -/
def isCancel (text : String) : Bool := cancelTokens.contains (pyLower text)

/-- True when the lowercased text is one of the affirmative tokens. -/
def isAffirm (text : String) : Bool := affirmTokens.contains (pyLower text)

/-- Source line 237 / 490: remove every comma from the entered amount
(Python `text.replace(',', '')`). -/
def stripCommas (s : String) : String := String.mk (s.data.filter (fun c => c ≠ ','))

/-- Transactions of the given user, in store order
(`filter_by(user_id=user_id).all()`, source line 336). -/
def userTxs (uid : ℤ) (txs : List Transaction) : List Transaction :=
  txs.filter (fun t => t.user_id = uid)

/-- Debts of the given user, in store order (source line 592). -/
def userDebts (uid : ℤ) (debts : List Debt) : List Debt :=
  debts.filter (fun d => d.user_id = uid)

/-- Source line 344: sum of the amounts of the user's income
transactions. -/
def total_income (ts : List Transaction) : PyDec :=
  pySum ((ts.filter (fun t => t.is_income)).map (fun t => t.amount))

/-- Source line 345: sum of the amounts of the user's expense
transactions. -/
def total_expenses (ts : List Transaction) : PyDec :=
  pySum ((ts.filter (fun t => ¬ t.is_income)).map (fun t => t.amount))

/-- Source line 346: `balance = total_income - total_expenses`. -/
def balance (ts : List Transaction) : PyDec :=
  pySub (total_income ts) (total_expenses ts)

/-- Python `transactions[-5:]`: the last five elements of the list in store
order (the whole list when it is shorter). -/
def lastFive (l : List Transaction) : List Transaction := l.drop (l.length - 5)

/-- Ordering used by the sort at source line 358:
`sorted(..., key=lambda x: x.date, reverse=True)` places `a` before `b`
exactly when `b.date ≤ a.date`, keeping store order on equal dates. -/
def dateDesc (a b : Transaction) : Prop := b.date ≤ a.date

instance : DecidableRel dateDesc := fun a b => inferInstanceAs (Decidable (b.date ≤ a.date))

instance : IsTotal Transaction dateDesc := ⟨fun a b => le_total b.date a.date⟩

instance : IsTrans Transaction dateDesc := ⟨fun _ _ _ hab hbc => le_trans hbc hab⟩

/-- The transactions displayed by the summary, in display order: the last
five in store order, stably sorted by date descending (source line 358;
Python's stable `sorted` with `reverse=True` agrees with a stable insertion
sort under `dateDesc`). -/
def summaryRecent (ts : List Transaction) : List Transaction :=
  (lastFive ts).insertionSort dateDesc

/-- Display block built for one recent transaction (source lines 358-365). -/
def mkSummaryEntry (t : Transaction) : SummaryEntry :=
  { id := t.id, glyphIncome := t.is_income, amount := t.amount,
    description := t.description, solarDate := get_solar_date t.date }

/-- Source `summary` (lines 326-370) as the list of replies it sends.
`none` models the exception `format_currency` raises inside the message
f-string when some amount is not finite (nothing is sent in that case). -/
def summaryMsgs (uid : ℤ) (txs : List Transaction) : Option (List Msg) :=
  let ts := userTxs uid txs
  if ts.isEmpty then some [.noTransactions, .menuPrompt .main]
  else
    match format_currency (total_income ts), format_currency (total_expenses ts),
        format_currency (balance ts) with
    | some _, some _, some _ =>
      if (summaryRecent ts).all (fun t => (format_currency t.amount).isSome) then
        some [.summaryReport (total_income ts) (total_expenses ts) (balance ts)
          ((summaryRecent ts).map mkSummaryEntry), .menuPrompt .main]
      else none
    | _, _, _ => none

/-- Source `debt_list` (lines 587-621) as the list of replies it sends. -/
def debtListMsgs (uid : ℤ) (debts : List Debt) : Option (List Msg) :=
  let ds := userDebts uid debts
  if ds.isEmpty then some [.noDebts, .menuPrompt .debtors]
  else
    match format_currency (pySum (ds.map (fun d => d.amount))) with
    | none => none
    | some totalText =>
      if ds.all (fun d => (format_currency d.amount).isSome) then
        some [.debtListReport totalText (ds.map fun d =>
          { debtor_name := d.debtor_name, debtor_id := d.debtor_id, amount := d.amount,
            solarDate := get_solar_date d.date, description := d.description }),
          .menuPrompt .debtors]
      else none

/-- Source `handle_command` (lines 182-225): route a menu-button label
received while no conversation is active. -/
def handle_command (text : String) (st : ConvState) (ud : Scratch) (env : Env)
    (txs : List Transaction) (debts : List Debt) : StepOut :=
  if text = "💰 ثبت درآمد" then
    { state := .amount, ud := { ud with is_income := some true }, txs := txs, debts := debts,
      msgs := [.askAmount true] }
  else if text = "💸 ثبت هزینه" then
    { state := .amount, ud := { ud with is_income := some false }, txs := txs, debts := debts,
      msgs := [.askAmount false] }
  else if text = "📊 گزارش مالی" then
    match summaryMsgs env.uid txs with
    | some ms => { state := .idle, ud := ud, txs := txs, debts := debts, msgs := ms }
    | none => { state := st, ud := ud, txs := txs, debts := debts, msgs := [],
                exc := some .overflowError }
  else if text = "✏️ ویرایش" then
    { state := .idle, ud := ud, txs := txs, debts := debts, msgs := [.menuPrompt .edit] }
  else if text = "👥 بدهکاران" then
    { state := .idle, ud := ud, txs := txs, debts := debts, msgs := [.menuPrompt .debtors] }
  else if text = "➕ ثبت بدهی" then
    { state := .debtorName, ud := ud, txs := txs, debts := debts, msgs := [.askDebtorName] }
  else if text = "🗑️ حذف بدهی" then
    { state := .deleteDebt, ud := ud, txs := txs, debts := debts, msgs := [.askDebtCode] }
  else if text = "📋 لیست بدهی‌ها" then
    match debtListMsgs env.uid debts with
    | some ms => { state := .idle, ud := ud, txs := txs, debts := debts, msgs := ms }
    | none => { state := st, ud := ud, txs := txs, debts := debts, msgs := [],
                exc := some .overflowError }
  else if text = "🔙 بازگشت به منو" then
    { state := .idle, ud := ud, txs := txs, debts := debts, msgs := [.menuPrompt .main] }
  else
    { state := .idle, ud := ud, txs := txs, debts := debts, msgs := [.menuPrompt .main] }

/-- Source `process_amount` (lines 227-254), the `AMOUNT` state handler.
A malformed amount makes `Decimal` raise `decimal.InvalidOperation`, which
the `except ValueError` clause at line 250 does not catch (it is an
`ArithmeticError` subclass), so the exception escapes and the framework
keeps the conversation state; likewise comparing a parsed NaN at line 239
raises before anything is stored or sent. -/
def process_amount (text : String) (st : ConvState) (ud : Scratch) (env : Env)
    (txs : List Transaction) (debts : List Debt) : StepOut :=
  if isCancel text then
    { state := .idle, ud := ud, txs := txs, debts := debts,
      msgs := [.opCancelled, .menuPrompt .main] }
  else
    match pyDecimal (stripCommas text) with
    | none => { state := st, ud := ud, txs := txs, debts := debts, msgs := [],
                exc := some .invalidOperation }
    | some amount =>
      match pyLeZero amount with
      | none => { state := st, ud := ud, txs := txs, debts := debts, msgs := [],
                  exc := some .invalidOperation }
      | some true =>
        { state := .amount, ud := ud, txs := txs, debts := debts, msgs := [.invalidNumber] }
      | some false =>
        let ud1 := { ud with amount := some amount }
        let ud2 := { ud1 with is_income := some (ud1.is_income.getD true) }
        { state := .description, ud := ud2, txs := txs, debts := debts,
          msgs := [.askDescription] }

/-- Source `process_description` (lines 256-286), the `DESCRIPTION` state
handler.  The description is stored first (line 265); the later subscript
reads of `is_income` and `amount` would raise `KeyError` were the keys
absent. -/
def process_description (text : String) (st : ConvState) (ud : Scratch) (env : Env)
    (txs : List Transaction) (debts : List Debt) : StepOut :=
  if isCancel text then
    { state := .idle, ud := ud, txs := txs, debts := debts,
      msgs := [.opCancelled, .menuPrompt .main] }
  else
    let ud1 := { ud with description := some text }
    match ud1.is_income with
    | none => { state := st, ud := ud1, txs := txs, debts := debts, msgs := [],
                exc := some .keyError }
    | some inc =>
      match ud1.amount with
      | none => { state := st, ud := ud1, txs := txs, debts := debts, msgs := [],
                  exc := some .keyError }
      | some amt =>
        match format_currency amt with
        | none => { state := st, ud := ud1, txs := txs, debts := debts, msgs := [],
                    exc := some .overflowError }
        | some amountText =>
          { state := .confirm, ud := ud1, txs := txs, debts := debts,
            msgs := [.confirmTx inc amountText text (get_solar_date env.now)] }

/-- Source `confirm_transaction` (lines 288-324), the `CONFIRM` state
handler.  Any non-affirmative input cancels.  On an affirmative input the
transaction is committed at line 304 with `date` defaulting to the current
time; the success reply at lines 310-315 interpolates type, formatted
amount, description and solar date (not the id).  Exceptions inside the
`try` block — including a `KeyError` on missing scratch keys — are caught
by `except Exception` (line 317), logged, and answered with the generic
failure message. -/
def confirm_transaction (text : String) (st : ConvState) (ud : Scratch) (env : Env)
    (txs : List Transaction) (debts : List Debt) : StepOut :=
  if ¬ isAffirm text then
    { state := .idle, ud := ud, txs := txs, debts := debts,
      msgs := [.txCancelled, .menuPrompt .main] }
  else
    match ud.amount, ud.description, ud.is_income with
    | some amt, some desc, some inc =>
      let t : Transaction := { id := env.nextTid, amount := amt, description := desc,
                               is_income := inc, date := env.now, user_id := env.uid }
      match format_currency amt with
      | some amountText =>
        { state := .idle, ud := ud, txs := txs ++ [t], debts := debts,
          msgs := [.txSaved inc amountText desc (get_solar_date env.now), .menuPrompt .main] }
      | none =>
        { state := .idle, ud := ud, txs := txs ++ [t], debts := debts,
          msgs := [.txSaveError, .menuPrompt .main], logs := ["Error saving transaction"] }
    | _, _, _ =>
      { state := .idle, ud := ud, txs := txs, debts := debts,
        msgs := [.txSaveError, .menuPrompt .main], logs := ["Error saving transaction"] }

/-- Source `process_debtor_name` (lines 455-478), the `DEBTOR_NAME` state
handler: store the name, then call `generate_debtor_id`, whose snapshot is
every `debtor_id` in the store (no user filter, source line 101).  When the
generator's unbounded loop finds no unused code within the modelled draws
the handler never returns (`diverged`). -/
def process_debtor_name (text : String) (st : ConvState) (ud : Scratch) (env : Env)
    (txs : List Transaction) (debts : List Debt) : StepOut :=
  if isCancel text then
    { state := .idle, ud := ud, txs := txs, debts := debts,
      msgs := [.opCancelled, .menuPrompt .debtors] }
  else
    let ud1 := { ud with debtor_name := some text }
    match generate_debtor_id env.draws (debts.map (fun d => d.debtor_id)) with
    | none => { state := st, ud := ud1, txs := txs, debts := debts, msgs := [],
                diverged := true }
    | some code =>
      let ud2 := { ud1 with debtor_id := some code }
      { state := .debtAmount, ud := ud2, txs := txs, debts := debts,
        msgs := [.debtorInfoAskAmount text code] }

/-- Source `process_debt_amount` (lines 480-507), the `DEBT_AMOUNT` state
handler; identical validation to `process_amount`, including the uncaught
`decimal.InvalidOperation` on a malformed amount. -/
def process_debt_amount (text : String) (st : ConvState) (ud : Scratch) (env : Env)
    (txs : List Transaction) (debts : List Debt) : StepOut :=
  if isCancel text then
    { state := .idle, ud := ud, txs := txs, debts := debts,
      msgs := [.opCancelled, .menuPrompt .debtors] }
  else
    match pyDecimal (stripCommas text) with
    | none => { state := st, ud := ud, txs := txs, debts := debts, msgs := [],
                exc := some .invalidOperation }
    | some amount =>
      match pyLeZero amount with
      | none => { state := st, ud := ud, txs := txs, debts := debts, msgs := [],
                  exc := some .invalidOperation }
      | some true =>
        { state := .debtAmount, ud := ud, txs := txs, debts := debts,
          msgs := [.invalidDebtNumber] }
      | some false =>
        { state := .debtDescription, ud := { ud with debt_amount := some amount },
          txs := txs, debts := debts, msgs := [.askDebtDescription] }

/-- Source `process_debt_description` (lines 509-545), the
`DEBT_DESCRIPTION` state handler: a skip token stores `None`, any other
text is stored verbatim; the confirmation prompt then reads the scratch
name, code and amount. -/
def process_debt_description (text : String) (st : ConvState) (ud : Scratch) (env : Env)
    (txs : List Transaction) (debts : List Debt) : StepOut :=
  if isCancel text then
    { state := .idle, ud := ud, txs := txs, debts := debts,
      msgs := [.opCancelled, .menuPrompt .debtors] }
  else
    let desc : Option String := if skipTokens.contains text then none else some text
    let ud1 := { ud with debt_description := some desc }
    match ud1.debtor_name, ud1.debtor_id, ud1.debt_amount with
    | some name, some code, some amt =>
      match format_currency amt with
      | none => { state := st, ud := ud1, txs := txs, debts := debts, msgs := [],
                  exc := some .overflowError }
      | some amountText =>
        { state := .debtConfirm, ud := ud1, txs := txs, debts := debts,
          msgs := [.confirmDebt name code amountText desc (get_solar_date env.now)] }
    | _, _, _ =>
      { state := st, ud := ud1, txs := txs, debts := debts, msgs := [],
        exc := some .keyError }

/-- Source `confirm_debt` (lines 547-585), the `DEBT_CONFIRM` state
handler.  The `debtor_id` column's `unique=True` constraint makes the
commit raise `IntegrityError` when the scratch code already exists in the
store; that (like any exception inside the `try`) is caught by
`except Exception` (line 578): the error is logged, the user gets the
generic failure message, nothing is persisted, and the flow ends at the
debtors menu. -/
def confirm_debt (text : String) (st : ConvState) (ud : Scratch) (env : Env)
    (txs : List Transaction) (debts : List Debt) : StepOut :=
  if ¬ isAffirm text then
    { state := .idle, ud := ud, txs := txs, debts := debts,
      msgs := [.debtCancelled, .menuPrompt .debtors] }
  else
    match ud.debtor_id, ud.debtor_name, ud.debt_amount with
    | some code, some name, some amt =>
      let desc : Option String := ud.debt_description.getD none
      if debts.any (fun d => d.debtor_id = code) then
        { state := .idle, ud := ud, txs := txs, debts := debts,
          msgs := [.debtSaveError, .menuPrompt .debtors], logs := ["Error saving debt"] }
      else
        let d : Debt := { id := env.nextDid, debtor_id := code, debtor_name := name,
                          amount := amt, description := desc, date := env.now,
                          user_id := env.uid }
        match format_currency amt with
        | some amountText =>
          { state := .idle, ud := ud, txs := txs, debts := debts ++ [d],
            msgs := [.debtSaved code name amountText (get_solar_date env.now) desc,
              .menuPrompt .debtors] }
        | none =>
          { state := .idle, ud := ud, txs := txs, debts := debts ++ [d],
            msgs := [.debtSaveError, .menuPrompt .debtors], logs := ["Error saving debt"] }
    | _, _, _ =>
      { state := .idle, ud := ud, txs := txs, debts := debts,
        msgs := [.debtSaveError, .menuPrompt .debtors], logs := ["Error saving debt"] }

/-- Source `delete_debt` (lines 623-667), the `DELETE_DEBT` state handler:
trim the entered code, look it up filtered by code and requesting user,
delete and report when found, report not-found otherwise; every branch ends
the conversation at the debtors menu. -/
def delete_debt (text : String) (st : ConvState) (ud : Scratch) (env : Env)
    (txs : List Transaction) (debts : List Debt) : StepOut :=
  if isCancel text then
    { state := .idle, ud := ud, txs := txs, debts := debts,
      msgs := [.opCancelled, .menuPrompt .debtors] }
  else
    let debt_id := pyStrip text
    match debts.find? (fun d => d.debtor_id = debt_id ∧ d.user_id = env.uid) with
    | some d =>
      let debts' := debts.erase d
      match format_currency d.amount with
      | some amountText =>
        { state := .idle, ud := ud, txs := txs, debts := debts',
          msgs := [.debtDeleted debt_id d.debtor_name amountText (get_solar_date d.date),
            .menuPrompt .debtors] }
      | none =>
        { state := .idle, ud := ud, txs := txs, debts := debts',
          msgs := [.debtDeleteError, .menuPrompt .debtors], logs := ["Error deleting debt"] }
    | none =>
      { state := .idle, ud := ud, txs := txs, debts := debts,
        msgs := [.debtNotFound, .menuPrompt .debtors] }

/-- Result of a one-shot slash-command handler over the transaction store. -/
structure TxCmdOut where
  txs : List Transaction
  msgs : List Msg
  exc : Option PyErr := none
  deriving DecidableEq, Repr

/-- Source `delete_transaction` (lines 407-434), the `/del_tr` command.
The query at line 418 filters by `id` only — the requesting user `uid`
(available as `update.effective_user.id`) is never consulted, so the first
transaction with the given id is deleted whoever owns it.  If the success
reply's `format_currency` raises after the commit, the deletion stands but
the exception escapes (`except ValueError` does not catch it). -/
def delete_transaction (uid : ℤ) (args : List String) (txs : List Transaction) : TxCmdOut :=
  match args with
  | [] => { txs := txs, msgs := [.missingTrIdArg true, .menuPrompt .edit] }
  | a :: _ =>
    match pyIntParse a with
    | none => { txs := txs, msgs := [.trIdNotNumeric, .menuPrompt .edit] }
    | some tid =>
      match txs.find? (fun t => (t.id : ℤ) = tid) with
      | some t =>
        match format_currency t.amount with
        | some amountText =>
          { txs := txs.erase t,
            msgs := [.delTrSuccess t.id t.is_income amountText t.description,
              .menuPrompt .edit] }
        | none => { txs := txs.erase t, msgs := [], exc := some .overflowError }
      | none => { txs := txs, msgs := [.delTrNotFound, .menuPrompt .edit] }

/-- Source `delete_all_transactions` (lines 436-453), the `/del_all_tr`
command: `session.query(Transaction).count()` and the subsequent bulk
delete carry no `user_id` filter — every user's transactions are counted
and deleted.  The requesting user `uid` is never consulted. -/
def delete_all_transactions (uid : ℤ) (txs : List Transaction) : TxCmdOut :=
  let count := txs.length
  if count = 0 then { txs := txs, msgs := [.noTxToDelete, .menuPrompt .edit] }
  else { txs := [], msgs := [.delAllDone count, .menuPrompt .edit] }

/-- One step of the conversation machine: deliver a plain text message to
the handler registered for the current state (source `ConversationHandler`,
lines 675-707).  Slash-commands are filtered away from these handlers by
`filters.TEXT & ~filters.COMMAND` and dispatched separately (the one-shot
command functions above). -/
def step (env : Env) (st : ConvState) (ud : Scratch) (txs : List Transaction)
    (debts : List Debt) (text : String) : StepOut :=
  match st with
  | .idle => handle_command text .idle ud env txs debts
  | .amount => process_amount text .amount ud env txs debts
  | .description => process_description text .description ud env txs debts
  | .confirm => confirm_transaction text .confirm ud env txs debts
  | .debtorName => process_debtor_name text .debtorName ud env txs debts
  | .debtAmount => process_debt_amount text .debtAmount ud env txs debts
  | .debtDescription => process_debt_description text .debtDescription ud env txs debts
  | .debtConfirm => confirm_debt text .debtConfirm ud env txs debts
  | .deleteDebt => delete_debt text .deleteDebt ud env txs debts

/-- Observable outcome of a run of the machine: everything a user or the
stores can see — final conversation state, both stores, every reply and
every log line — but not the internal scratch mapping. -/
structure Obs where
  state : ConvState
  txs : List Transaction
  debts : List Debt
  msgs : List Msg
  logs : List String
  deriving DecidableEq, Repr

/-- Run the machine over a list of inbound messages (each with its ambient
environment), collecting the observables.  A diverging handler blocks the
per-user update queue, so the run stops there. -/
def runObs : List (Env × String) → ConvState → Scratch → List Transaction → List Debt → Obs
  | [], st, _, txs, debts => { state := st, txs := txs, debts := debts, msgs := [], logs := [] }
  | (env, text) :: rest, st, ud, txs, debts =>
    let o := step env st ud txs debts text
    if o.diverged then
      { state := o.state, txs := o.txs, debts := o.debts, msgs := o.msgs, logs := o.logs }
    else
      let r := runObs rest o.state o.ud o.txs o.debts
      { state := r.state, txs := r.txs, debts := r.debts,
        msgs := o.msgs ++ r.msgs, logs := o.logs ++ r.logs }

/-- Spec-side total income: the sum (over ℚ) of the amounts of the user's
transactions with `isIncome` true, written directly from the claim's words
for comparison against the code's `total_income`. -/
def specTotalIncome (ts : List Transaction) : ℚ :=
  ((ts.filter (fun t => t.is_income)).map (fun t => t.amount.toRat)).sum

/-- Spec-side total expenses: the sum of the amounts of the user's
transactions with `isIncome` false. -/
def specTotalExpenses (ts : List Transaction) : ℚ :=
  ((ts.filter (fun t => ¬ t.is_income)).map (fun t => t.amount.toRat)).sum

/-- Rendered text of the success reply at source lines 310-315, built from
exactly the values its f-string interpolates. -/
def renderTxSaved (income : Bool) (amountText desc solarDate : String) : String :=
  "✅ " ++ (if income then "درآمد" else "هزینه") ++ " با موفقیت ثبت شد!\n" ++
    "مبلغ: " ++ amountText ++ "\n" ++
    "توضیحات: " ++ desc ++ "\n" ++
    "تاریخ شمسی: " ++ solarDate

/-- The string `needle` occurs inside `hay` (used to state what a rendered
reply does or does not show). -/
def containsSub (needle hay : String) : Prop := List.IsInfix needle.data hay.data

instance (needle hay : String) : Decidable (containsSub needle hay) :=
  inferInstanceAs (Decidable (List.IsInfix needle.data hay.data))

/-- Scratch keys that the remainder of a flow in the given state can still
read: two scratch mappings agreeing on them are indistinguishable to every
continuation.  (`idle`, `debtorName` and `deleteDebt` read no previously
stored key.) -/
def relevantEq : ConvState → Scratch → Scratch → Prop
  | .idle, _, _ => True
  | .amount, u, v => u.is_income = v.is_income
  | .description, u, v => u.is_income = v.is_income ∧ u.amount = v.amount
  | .confirm, u, v =>
      u.is_income = v.is_income ∧ u.amount = v.amount ∧ u.description = v.description
  | .debtorName, _, _ => True
  | .debtAmount, u, v => u.debtor_name = v.debtor_name ∧ u.debtor_id = v.debtor_id
  | .debtDescription, u, v =>
      u.debtor_name = v.debtor_name ∧ u.debtor_id = v.debtor_id ∧
        u.debt_amount = v.debt_amount
  | .debtConfirm, u, v =>
      u.debtor_name = v.debtor_name ∧ u.debtor_id = v.debtor_id ∧
        u.debt_amount = v.debt_amount ∧ u.debt_description = v.debt_description
  | .deleteDebt, _, _ => True

/-- Every string matching `^[a-z][1-9]{2}$`, enumerated as the image of
`codeOfDraw` over all 26 × 9 × 9 draws. -/
def allCodes : List String :=
  (List.finRange 26).flatMap fun l =>
    (List.finRange 9).flatMap fun i =>
      (List.finRange 9).map fun j => codeOfDraw (l, i, j)

/-- A fixed draw producing the code `a11`. -/
def dA : Draw := (0, 0, 0)

/-- A fixed draw producing the code `b11`. -/
def dB : Draw := (1, 0, 0)

/-- A fixed environment: requesting user 1 at time 10; the autoincrement
columns would assign ids 42 and 7 next. -/
def env0 : Env := { uid := 1, now := 10, nextTid := 42, nextDid := 7, draws := [] }

/-- A transaction owned by user 2 (not by the requesting user 1 of
`env0`). -/
def tOther : Transaction :=
  { id := 7, amount := .num 5000, description := "rent", is_income := false,
    date := 3, user_id := 2 }

/-- An all-expense one-element store owned by user 1. -/
def txExpense : Transaction :=
  { id := 1, amount := .num 5000, description := "rent", is_income := false,
    date := 0, user_id := 1 }

/-- A scratch mapping mid-way through an expense flow (amount already
entered). -/
def udDirty : Scratch := { is_income := some true, amount := some (.num 5) }

/-- A scratch mapping ready for transaction confirmation. -/
def udConfirm : Scratch :=
  { is_income := some false, amount := some (.num 5000), description := some "lunch" }

/-- A scratch mapping ready for debt confirmation with code `a11`. -/
def udDebtConfirm : Scratch :=
  { debtor_name := some "Ali", debtor_id := some "a11", debt_amount := some (.num 9000),
    debt_description := some none }

/-- A debt with code `a11` owned by user 2. -/
def debtA11 : Debt :=
  { id := 1, debtor_id := "a11", debtor_name := "Reza", amount := .num 400,
    description := none, date := 4, user_id := 2 }

/-- A user-1 transaction store whose first element is the most recently
dated: six transactions in store order with dates 100, 1, 2, 3, 4, 5. -/
def txsOutOfOrder : List Transaction :=
  [{ id := 1, amount := .num 1, description := "a", is_income := true, date := 100, user_id := 1 },
   { id := 2, amount := .num 1, description := "b", is_income := true, date := 1, user_id := 1 },
   { id := 3, amount := .num 1, description := "c", is_income := true, date := 2, user_id := 1 },
   { id := 4, amount := .num 1, description := "d", is_income := true, date := 3, user_id := 1 },
   { id := 5, amount := .num 1, description := "e", is_income := true, date := 4, user_id := 1 },
   { id := 6, amount := .num 1, description := "f", is_income := true, date := 5, user_id := 1 }]

/-- Observable part of a step result: everything except the internal
scratch mapping. -/
def StepOut.obs (o : StepOut) :
    ConvState × List Transaction × List Debt × List Msg × List String × Option PyErr × Bool :=
  (o.state, o.txs, o.debts, o.msgs, o.logs, o.exc, o.diverged)

/-- A debt with code `a12` owned by user 1 (the requester of `env0`). -/
def debtA12 : Debt :=
  { id := 1, debtor_id := "a12", debtor_name := "Ali", amount := .num 5,
    description := none, date := 3, user_id := 1 }

/-- A user-1 store in ascending date order: six transactions with dates
1, 2, 3, 4, 5, 100. -/
def txsAscending : List Transaction :=
  [{ id := 1, amount := .num 1, description := "a", is_income := true, date := 1, user_id := 1 },
   { id := 2, amount := .num 1, description := "b", is_income := true, date := 2, user_id := 1 },
   { id := 3, amount := .num 1, description := "c", is_income := true, date := 3, user_id := 1 },
   { id := 4, amount := .num 1, description := "d", is_income := true, date := 4, user_id := 1 },
   { id := 5, amount := .num 1, description := "e", is_income := true, date := 5, user_id := 1 },
   { id := 6, amount := .num 1, description := "f", is_income := true, date := 100, user_id := 1 }]

/-! ### Helper lemmas -/

/-- Helper: a cancellation token is never an affirmative token. -/
theorem cancel_not_affirm (text : String) (h : isCancel text = true) : isAffirm text = false := by
  have h' : pyLower text = "/cancel" ∨ pyLower text = "لغو" ∨ pyLower text = "cancel"
      ∨ pyLower text = "❌ لغو" := by
    simpa [isCancel, cancelTokens] using h
  rcases h' with h' | h' | h' | h' <;> simp [isAffirm, affirmTokens, h']

set_option maxHeartbeats 1600000 in
/-- Helper: `handle_command` never reads scratch, so two sessions differing
only in scratch behave observably alike from `idle`. -/
theorem handle_command_bisim (text : String) (env : Env) (txs : List Transaction)
    (debts : List Debt) (u v : Scratch) :
    (handle_command text .idle u env txs debts).obs
        = (handle_command text .idle v env txs debts).obs
    ∧ relevantEq (handle_command text .idle u env txs debts).state
        (handle_command text .idle u env txs debts).ud
        (handle_command text .idle v env txs debts).ud := by
  unfold handle_command
  split_ifs <;>
    (try cases summaryMsgs env.uid txs) <;>
    (try cases debtListMsgs env.uid debts) <;>
    exact ⟨rfl, by simp [relevantEq]⟩

/-- Helper: bisimulation of `process_amount` over sessions agreeing on
`is_income`. -/
theorem process_amount_bisim (text : String) (env : Env) (txs : List Transaction)
    (debts : List Debt) (u v : Scratch) (h : u.is_income = v.is_income) :
    (process_amount text .amount u env txs debts).obs
        = (process_amount text .amount v env txs debts).obs
    ∧ relevantEq (process_amount text .amount u env txs debts).state
        (process_amount text .amount u env txs debts).ud
        (process_amount text .amount v env txs debts).ud := by
  unfold process_amount
  split_ifs
  · exact ⟨rfl, trivial⟩
  · cases pyDecimal (stripCommas text) with
    | none => exact ⟨rfl, by simp [relevantEq, h]⟩
    | some a =>
      (try dsimp only)
      cases pyLeZero a with
      | none => exact ⟨rfl, by simp [relevantEq, h]⟩
      | some b => cases b <;> exact ⟨rfl, by simp [relevantEq, h]⟩

/-- Helper: bisimulation of `process_description` over sessions agreeing on
`is_income` and `amount`. -/
theorem process_description_bisim (text : String) (env : Env) (txs : List Transaction)
    (debts : List Debt) (u v : Scratch)
    (h1 : u.is_income = v.is_income) (h2 : u.amount = v.amount) :
    (process_description text .description u env txs debts).obs
        = (process_description text .description v env txs debts).obs
    ∧ relevantEq (process_description text .description u env txs debts).state
        (process_description text .description u env txs debts).ud
        (process_description text .description v env txs debts).ud := by
  unfold process_description
  split_ifs
  · exact ⟨rfl, trivial⟩
  · (try dsimp only)
    simp only [h1, h2]
    cases v.is_income with
    | none => exact ⟨rfl, by simp [relevantEq, h1, h2]⟩
    | some inc =>
      (try dsimp only)
      cases v.amount with
      | none => exact ⟨rfl, by simp [relevantEq, h1, h2]⟩
      | some amt =>
        (try dsimp only)
        cases format_currency amt <;> exact ⟨rfl, by simp [relevantEq, h1, h2]⟩

/-- Helper: bisimulation of `confirm_transaction` over sessions agreeing on
`is_income`, `amount` and `description`. -/
theorem confirm_transaction_bisim (text : String) (env : Env) (txs : List Transaction)
    (debts : List Debt) (u v : Scratch)
    (h1 : u.is_income = v.is_income) (h2 : u.amount = v.amount)
    (h3 : u.description = v.description) :
    (confirm_transaction text .confirm u env txs debts).obs
        = (confirm_transaction text .confirm v env txs debts).obs
    ∧ relevantEq (confirm_transaction text .confirm u env txs debts).state
        (confirm_transaction text .confirm u env txs debts).ud
        (confirm_transaction text .confirm v env txs debts).ud := by
  unfold confirm_transaction
  split_ifs
  case pos =>
    (try dsimp only)
    simp only [h1, h2, h3]
    cases v.amount with
    | none => exact ⟨rfl, trivial⟩
    | some amt =>
      (try dsimp only)
      cases v.description with
      | none => exact ⟨rfl, trivial⟩
      | some d =>
        (try dsimp only)
        cases v.is_income with
        | none => exact ⟨rfl, trivial⟩
        | some inc =>
          (try dsimp only)
          cases format_currency amt <;> exact ⟨rfl, trivial⟩
  case neg => exact ⟨rfl, trivial⟩

/-- Helper: bisimulation of `process_debtor_name` (reads no prior scratch
key). -/
theorem process_debtor_name_bisim (text : String) (env : Env) (txs : List Transaction)
    (debts : List Debt) (u v : Scratch) :
    (process_debtor_name text .debtorName u env txs debts).obs
        = (process_debtor_name text .debtorName v env txs debts).obs
    ∧ relevantEq (process_debtor_name text .debtorName u env txs debts).state
        (process_debtor_name text .debtorName u env txs debts).ud
        (process_debtor_name text .debtorName v env txs debts).ud := by
  unfold process_debtor_name
  split_ifs
  · exact ⟨rfl, trivial⟩
  · (try dsimp only)
    cases generate_debtor_id env.draws (debts.map (fun d => d.debtor_id)) with
    | none => exact ⟨rfl, trivial⟩
    | some code => exact ⟨rfl, by simp [relevantEq]⟩

/-- Helper: bisimulation of `process_debt_amount` over sessions agreeing on
`debtor_name` and `debtor_id`. -/
theorem process_debt_amount_bisim (text : String) (env : Env) (txs : List Transaction)
    (debts : List Debt) (u v : Scratch)
    (h1 : u.debtor_name = v.debtor_name) (h2 : u.debtor_id = v.debtor_id) :
    (process_debt_amount text .debtAmount u env txs debts).obs
        = (process_debt_amount text .debtAmount v env txs debts).obs
    ∧ relevantEq (process_debt_amount text .debtAmount u env txs debts).state
        (process_debt_amount text .debtAmount u env txs debts).ud
        (process_debt_amount text .debtAmount v env txs debts).ud := by
  unfold process_debt_amount
  split_ifs
  · exact ⟨rfl, trivial⟩
  · cases pyDecimal (stripCommas text) with
    | none => exact ⟨rfl, by simp [relevantEq, h1, h2]⟩
    | some a =>
      (try dsimp only)
      cases pyLeZero a with
      | none => exact ⟨rfl, by simp [relevantEq, h1, h2]⟩
      | some b => cases b <;> exact ⟨rfl, by simp [relevantEq, h1, h2]⟩

/-- Helper: bisimulation of `process_debt_description` over sessions
agreeing on `debtor_name`, `debtor_id` and `debt_amount`. -/
theorem process_debt_description_bisim (text : String) (env : Env) (txs : List Transaction)
    (debts : List Debt) (u v : Scratch)
    (h1 : u.debtor_name = v.debtor_name) (h2 : u.debtor_id = v.debtor_id)
    (h3 : u.debt_amount = v.debt_amount) :
    (process_debt_description text .debtDescription u env txs debts).obs
        = (process_debt_description text .debtDescription v env txs debts).obs
    ∧ relevantEq (process_debt_description text .debtDescription u env txs debts).state
        (process_debt_description text .debtDescription u env txs debts).ud
        (process_debt_description text .debtDescription v env txs debts).ud := by
  unfold process_debt_description
  split_ifs
  · exact ⟨rfl, trivial⟩
  all_goals (
    (try dsimp only)
    simp only [h1, h2, h3]
    cases v.debtor_name with
    | none => exact ⟨rfl, by simp [relevantEq, h1, h2, h3]⟩
    | some name =>
      (try dsimp only)
      cases v.debtor_id with
      | none => exact ⟨rfl, by simp [relevantEq, h1, h2, h3]⟩
      | some code =>
        (try dsimp only)
        cases v.debt_amount with
        | none => exact ⟨rfl, by simp [relevantEq, h1, h2, h3]⟩
        | some amt =>
          (try dsimp only)
          cases format_currency amt <;> exact ⟨rfl, by simp [relevantEq, h1, h2, h3]⟩)

/-- Helper: bisimulation of `confirm_debt` over sessions agreeing on all
four debt scratch keys. -/
theorem confirm_debt_bisim (text : String) (env : Env) (txs : List Transaction)
    (debts : List Debt) (u v : Scratch)
    (h1 : u.debtor_name = v.debtor_name) (h2 : u.debtor_id = v.debtor_id)
    (h3 : u.debt_amount = v.debt_amount) (h4 : u.debt_description = v.debt_description) :
    (confirm_debt text .debtConfirm u env txs debts).obs
        = (confirm_debt text .debtConfirm v env txs debts).obs
    ∧ relevantEq (confirm_debt text .debtConfirm u env txs debts).state
        (confirm_debt text .debtConfirm u env txs debts).ud
        (confirm_debt text .debtConfirm v env txs debts).ud := by
  unfold confirm_debt
  split_ifs
  case pos =>
    (try dsimp only)
    simp only [h1, h2, h3, h4]
    cases v.debtor_id with
    | none => exact ⟨rfl, trivial⟩
    | some code =>
      (try dsimp only)
      cases v.debtor_name with
      | none => exact ⟨rfl, trivial⟩
      | some name =>
        (try dsimp only)
        cases v.debt_amount with
        | none => exact ⟨rfl, trivial⟩
        | some amt =>
          (try dsimp only)
          split_ifs <;>
            (try cases format_currency amt) <;> exact ⟨rfl, trivial⟩
  case neg => exact ⟨rfl, trivial⟩

/-- Helper: bisimulation of `delete_debt` (reads no scratch key). -/
theorem delete_debt_bisim (text : String) (env : Env) (txs : List Transaction)
    (debts : List Debt) (u v : Scratch) :
    (delete_debt text .deleteDebt u env txs debts).obs
        = (delete_debt text .deleteDebt v env txs debts).obs
    ∧ relevantEq (delete_debt text .deleteDebt u env txs debts).state
        (delete_debt text .deleteDebt u env txs debts).ud
        (delete_debt text .deleteDebt v env txs debts).ud := by
  unfold delete_debt
  split_ifs
  · exact ⟨rfl, trivial⟩
  · (try dsimp only)
    cases debts.find? (fun d => decide (d.debtor_id = pyStrip text ∧ d.user_id = env.uid)) with
    | none => exact ⟨rfl, trivial⟩
    | some d =>
      (try dsimp only)
      cases format_currency d.amount <;> exact ⟨rfl, trivial⟩

/-- Helper: one-step bisimulation — from any state, two sessions agreeing on
the state's relevant scratch keys produce identical observables and stay
related. -/
theorem step_bisim (env : Env) (st : ConvState) (u v : Scratch) (txs : List Transaction)
    (debts : List Debt) (text : String) (h : relevantEq st u v) :
    (step env st u txs debts text).obs = (step env st v txs debts text).obs
    ∧ relevantEq (step env st u txs debts text).state
        (step env st u txs debts text).ud (step env st v txs debts text).ud := by
  cases st with
  | idle => exact handle_command_bisim text env txs debts u v
  | amount => exact process_amount_bisim text env txs debts u v h
  | description => exact process_description_bisim text env txs debts u v h.1 h.2
  | confirm => exact confirm_transaction_bisim text env txs debts u v h.1 h.2.1 h.2.2
  | debtorName => exact process_debtor_name_bisim text env txs debts u v
  | debtAmount => exact process_debt_amount_bisim text env txs debts u v h.1 h.2
  | debtDescription => exact process_debt_description_bisim text env txs debts u v h.1 h.2.1 h.2.2
  | debtConfirm => exact confirm_debt_bisim text env txs debts u v h.1 h.2.1 h.2.2.1 h.2.2.2
  | deleteDebt => exact delete_debt_bisim text env txs debts u v

/-- Helper: trace-level bisimulation — related sessions produce identical
observables over any input sequence. -/
theorem runObs_bisim (inputs : List (Env × String)) :
    ∀ (st : ConvState) (u v : Scratch) (txs : List Transaction) (debts : List Debt),
      relevantEq st u v →
      runObs inputs st u txs debts = runObs inputs st v txs debts := by
  induction inputs with
  | nil => intro st u v txs debts _; rfl
  | cons p rest ih =>
    intro st u v txs debts h
    obtain ⟨env, text⟩ := p
    obtain ⟨hobs, hrel⟩ := step_bisim env st u v txs debts text h
    have hstate : (step env st u txs debts text).state = (step env st v txs debts text).state :=
      congrArg (fun x => x.1) hobs
    have htxs : (step env st u txs debts text).txs = (step env st v txs debts text).txs :=
      congrArg (fun x => x.2.1) hobs
    have hdebts : (step env st u txs debts text).debts = (step env st v txs debts text).debts :=
      congrArg (fun x => x.2.2.1) hobs
    have hmsgs : (step env st u txs debts text).msgs = (step env st v txs debts text).msgs :=
      congrArg (fun x => x.2.2.2.1) hobs
    have hlogs : (step env st u txs debts text).logs = (step env st v txs debts text).logs :=
      congrArg (fun x => x.2.2.2.2.1) hobs
    have hdiv : (step env st u txs debts text).diverged
        = (step env st v txs debts text).diverged :=
      congrArg (fun x => x.2.2.2.2.2.2) hobs
    have hrel' : relevantEq (step env st v txs debts text).state
        (step env st u txs debts text).ud (step env st v txs debts text).ud := hstate ▸ hrel
    simp only [runObs]
    rw [hstate, htxs, hdebts, hmsgs, hlogs, hdiv,
      ih (step env st v txs debts text).state (step env st u txs debts text).ud
        (step env st v txs debts text).ud (step env st v txs debts text).txs
        (step env st v txs debts text).debts hrel']

/-- Helper: `getD` at an in-range index is `get`. -/
theorem getD_eq_get {α : Type} (l : List α) (dflt : α) (i : Fin l.length) :
    l.getD i.val dflt = l.get i := by
  simp [List.getD_eq_getElem?_getD, List.getElem?_eq_getElem i.isLt, List.get_eq_getElem]

/-- Helper: every candidate the generator can draw matches
`^[a-z][1-9]{2}$` (checked over all 26 × 9 × 9 draws). -/
theorem codeOfDraw_valid3 : ∀ (l : Fin 26) (i j : Fin 9), validCode (codeOfDraw (l, i, j)) = true := by
  decide

/-- Helper: `codeOfDraw_valid3` restated over the packed draw type. -/
theorem codeOfDraw_valid (d : Draw) : validCode (codeOfDraw d) = true :=
  codeOfDraw_valid3 d.1 d.2.1 d.2.2

/-- Helper: every string matching `^[a-z][1-9]{2}$` is listed in
`allCodes`. -/
theorem validCode_mem_allCodes (c : String) (h : validCode c = true) : c ∈ allCodes := by
  unfold validCode at h
  split at h
  case h_1 a b d heq =>
    simp only [Bool.and_eq_true] at h
    obtain ⟨⟨ha, hb⟩, hd⟩ := h
    have ha' : a ∈ letterChars := by simpa using ha
    have hb' : b ∈ digitChars := by simpa using hb
    have hd' : d ∈ digitChars := by simpa using hd
    obtain ⟨ia, hga⟩ := List.mem_iff_get.mp ha'
    obtain ⟨ib, hgb⟩ := List.mem_iff_get.mp hb'
    obtain ⟨jd, hgd⟩ := List.mem_iff_get.mp hd'
    have hcode : codeOfDraw (⟨ia.val, ia.isLt⟩, ⟨ib.val, ib.isLt⟩, ⟨jd.val, jd.isLt⟩) = c := by
      show String.mk [letterChars.getD ia.val 'a', digitChars.getD ib.val '1',
        digitChars.getD jd.val '1'] = c
      rw [getD_eq_get letterChars 'a' ia, getD_eq_get digitChars '1' ib,
        getD_eq_get digitChars '1' jd, hga, hgb, hgd, ← heq]
    simp only [allCodes, List.mem_flatMap, List.mem_map]
    exact ⟨⟨ia.val, ia.isLt⟩, List.mem_finRange _, ⟨ib.val, ib.isLt⟩, List.mem_finRange _,
      ⟨jd.val, jd.isLt⟩, List.mem_finRange _, hcode⟩
  case h_2 => exact absurd h (by simp)

/-! ### C5 — debtor-id generator: format and freshness -/

/-- C5: every code the debtor-id generator returns matches
`^[a-z][1-9]{2}$`, and differs from every code in the snapshot of existing
codes it was given. -/
theorem c5_generate_format_fresh (draws : List Draw) (existing : List String) (c : String)
    (h : generate_debtor_id draws existing = some c) :
    validCode c = true ∧ c ∉ existing := by
  induction draws with
  | nil => exact absurd h (by simp [generate_debtor_id])
  | cons d rest ih =>
    simp only [generate_debtor_id] at h
    split at h
    · exact ih h
    · next hc =>
      obtain rfl : codeOfDraw d = c := by injection h
      refine ⟨codeOfDraw_valid d, ?_⟩
      intro hmem
      exact hc (by simpa using hmem)

/-- C5 witness: a concrete run — one draw against the snapshot
`["z99"]` returns `"a11"`, which is well-formed and fresh. -/
theorem c5_generate_format_fresh_witness :
    validCode "a11" = true ∧ "a11" ∉ ["z99"] :=
  c5_generate_format_fresh [dA] ["z99"] "a11" (by decide)

/-! ### C10 — debtor-id generator: unbounded retry loop -/

/-- C10: if the snapshot contains every string matching `^[a-z][1-9]{2}$`,
the generator's retry loop never returns no matter how many draws it
consumes; moreover the loop has no bound on retries — already against the
one-code snapshot `["a11"]` there are non-returning runs of every length —
while a suitable draw makes the same snapshot terminate, so termination
depends entirely on the random draws. -/
theorem c10_generator_unbounded :
    (∀ existing : List String, (∀ c, validCode c = true → c ∈ existing) →
      ∀ draws, generate_debtor_id draws existing = none)
    ∧ (∀ n : ℕ, generate_debtor_id (List.replicate n dA) ["a11"] = none)
    ∧ (∃ draws c, generate_debtor_id draws ["a11"] = some c) := by
  refine ⟨?_, ?_, ⟨[dB], "b11", by decide⟩⟩
  · intro existing h draws
    induction draws with
    | nil => rfl
    | cons d rest ih =>
      have hm : codeOfDraw d ∈ existing := h _ (codeOfDraw_valid d)
      simp [generate_debtor_id, hm, ih]
  · intro n
    induction n with
    | zero => rfl
    | succ k ih =>
      have hA : codeOfDraw dA = "a11" := by decide
      simp [List.replicate_succ, generate_debtor_id, hA, ih]

/-- C10 witness: the first conjunct applied to the concrete full snapshot
`allCodes` and a concrete three-draw run. -/
theorem c10_generator_unbounded_witness :
    generate_debtor_id [dA, dB, dA] allCodes = none :=
  c10_generator_unbounded.1 allCodes validCode_mem_allCodes [dA, dB, dA]

/-! ### C2 — awaiting-amount validation: parse failures escape uncaught -/

/-- C2: the awaiting-amount handlers evaluated at the spec's own scenario
inputs.  An unparseable amount such as `"abc"` makes `Decimal` raise
`decimal.InvalidOperation`; the handler's `except ValueError` clause does
not catch it, so the exception escapes with no reply sent (the state stays
at the amount step only because the framework keeps state on an escaped
exception) — in both the transaction and the debt flow.  A parsed value
`≤ 0` and a parsed positive value behave exactly as the claim says. -/
theorem c2_parse_failure_uncaught :
    process_amount "abc" .amount Scratch.empty env0 [] []
      = { state := .amount, ud := Scratch.empty, txs := [], debts := [], msgs := [],
          exc := some .invalidOperation }
    ∧ process_debt_amount "abc" .debtAmount Scratch.empty env0 [] []
      = { state := .debtAmount, ud := Scratch.empty, txs := [], debts := [], msgs := [],
          exc := some .invalidOperation }
    ∧ process_amount "-5" .amount Scratch.empty env0 [] []
      = { state := .amount, ud := Scratch.empty, txs := [], debts := [],
          msgs := [.invalidNumber] }
    ∧ (process_amount "20000" .amount Scratch.empty env0 [] []).state = .description
    ∧ (process_amount "20000" .amount Scratch.empty env0 [] []).ud.amount
        = some (.num 20000) := by
  exact ⟨by decide, by decide, by decide, by decide, by decide⟩

/-! ### C3 — cancellation: returns to Idle, but scratch is retained -/

/-- C3 counterexample: cancelling mid-flow (state awaiting-description,
scratch holding `is_income` and `amount`) does return the session to
`Idle`, but the scratch mapping is not discarded — `context.user_data` is
never cleared, so `amount` is still present afterwards, falsifying
"discards all scratch fields". -/
theorem c3_scratch_retained_cex :
    (step env0 .description udDirty [] [] "cancel").state = .idle
    ∧ (step env0 .description udDirty [] [] "cancel").ud = udDirty
    ∧ ¬ (step env0 .description udDirty [] [] "cancel").ud.amount = none := by
  exact ⟨by decide, by decide, by decide⟩

/-- C3 amended: sending a cancellation token in any non-Idle state returns
the session to Idle; the scratch mapping is retained rather than
discarded, but no retained value can leak: every flow writes a scratch key
before reading it, so from Idle the machine's entire observable behaviour
(replies, logs, both stores, conversation states) over any input sequence
is identical for any two scratch mappings — in particular a flow started
after cancellation behaves exactly as in a fresh session. -/
theorem c3_cancel_idle_no_leakage :
    (∀ (env : Env) (st : ConvState) (ud : Scratch) (txs : List Transaction)
        (debts : List Debt) (text : String), st ≠ .idle → isCancel text = true →
      (step env st ud txs debts text).state = .idle)
    ∧ (∀ (inputs : List (Env × String)) (u v : Scratch) (txs : List Transaction)
        (debts : List Debt),
      runObs inputs .idle u txs debts = runObs inputs .idle v txs debts) := by
  constructor
  · intro env st ud txs debts text hst hcan
    have haff := cancel_not_affirm text hcan
    cases st with
    | idle => exact absurd rfl hst
    | amount => simp [step, process_amount, hcan]
    | description => simp [step, process_description, hcan]
    | confirm => simp [step, confirm_transaction, haff]
    | debtorName => simp [step, process_debtor_name, hcan]
    | debtAmount => simp [step, process_debt_amount, hcan]
    | debtDescription => simp [step, process_debt_description, hcan]
    | debtConfirm => simp [step, confirm_debt, haff]
    | deleteDebt => simp [step, delete_debt, hcan]
  · intro inputs u v txs debts
    exact runObs_bisim inputs .idle u v txs debts trivial

/-- C3 witness: the amended theorem applied concretely — cancelling from
the awaiting-amount state lands in Idle, and a one-message trace from Idle
is observably identical for a dirty and a fresh scratch mapping. -/
theorem c3_cancel_idle_no_leakage_witness :
    (step env0 .amount udDirty [] [] "cancel").state = .idle
    ∧ runObs [(env0, "💰 ثبت درآمد")] .idle udDirty [] []
        = runObs [(env0, "💰 ثبت درآمد")] .idle Scratch.empty [] [] :=
  ⟨c3_cancel_idle_no_leakage.1 env0 .amount udDirty [] [] "cancel" (by decide) (by decide),
    c3_cancel_idle_no_leakage.2 [(env0, "💰 ثبت درآمد")] udDirty Scratch.empty [] []⟩

/-! ### C1 — transaction deletion is not owner-scoped -/

/-- C1 counterexample: requester 1 runs `/del_tr 7` against a store holding
only user 2's transaction — the record of the other owner is deleted; and
`/del_all_tr` run by requester 1, who owns no transaction at all, deletes
the store and reports count 1.  This falsifies the claim that both
commands affect only records owned by the requester and that the reported
count equals the requester's own deletions. -/
theorem c1_cross_owner_cex :
    tOther.user_id = 2 ∧ userTxs 1 [tOther] = []
    ∧ (delete_transaction 1 ["7"] [tOther]).txs = []
    ∧ (delete_all_transactions 1 [tOther]).txs = []
    ∧ (delete_all_transactions 1 [tOther]).msgs = [.delAllDone 1, .menuPrompt .edit] := by
  refine ⟨rfl, rfl, ?_, rfl, rfl⟩
  decide

/-- C1 amended: neither deletion command consults the requesting user.
`/del_tr` deletes the first transaction carrying the parsed id regardless
of owner (and leaves every transaction with a different id in place), and
`/del_all_tr` on a non-empty store empties it entirely, reporting the
total count across all users. -/
theorem c1_delete_unscoped :
    (∀ (uid uid' : ℤ) (args : List String) (txs : List Transaction),
      delete_transaction uid args txs = delete_transaction uid' args txs
        ∧ delete_all_transactions uid txs = delete_all_transactions uid' txs)
    ∧ (∀ (uid : ℤ) (a : String) (rest : List String) (txs : List Transaction) (tid : ℤ),
      pyIntParse a = some tid →
        (∀ t, txs.find? (fun t' => (t'.id : ℤ) = tid) = some t →
          (delete_transaction uid (a :: rest) txs).txs = txs.erase t)
        ∧ (txs.find? (fun t' => (t'.id : ℤ) = tid) = none →
          (delete_transaction uid (a :: rest) txs).txs = txs)
        ∧ (∀ t' ∈ txs, (t'.id : ℤ) ≠ tid →
          t' ∈ (delete_transaction uid (a :: rest) txs).txs))
    ∧ (∀ (uid : ℤ) (txs : List Transaction), txs ≠ [] →
      (delete_all_transactions uid txs).txs = []
        ∧ (delete_all_transactions uid txs).msgs
            = [.delAllDone txs.length, .menuPrompt .edit]) := by
  refine ⟨fun uid uid' args txs => ⟨rfl, rfl⟩, ?_, ?_⟩
  · intro uid a rest txs tid h
    refine ⟨?_, ?_, ?_⟩
    · intro t ht
      cases hf : format_currency t.amount <;>
        simp [delete_transaction, h, ht, hf]
    · intro ht
      simp [delete_transaction, h, ht]
    · intro t' ht' hne
      cases hfind : txs.find? (fun t'' => decide ((t''.id : ℤ) = tid)) with
      | none => simpa [delete_transaction, h, hfind] using ht'
      | some t0 =>
        have h0 : (t0.id : ℤ) = tid := by simpa using List.find?_some hfind
        have hne0 : t' ≠ t0 := fun he => hne (he ▸ h0)
        cases hf : format_currency t0.amount <;>
          simp [delete_transaction, h, hfind, hf, List.mem_erase_of_ne hne0, ht']
  · intro uid txs h
    have : txs.length ≠ 0 := by simpa using h
    simp [delete_all_transactions, this]

/-- C1 witness: the amended theorem applied to the concrete store
`[tOther]`, discharging the parse and non-emptiness hypotheses. -/
theorem c1_delete_unscoped_witness :
    (delete_transaction 1 ["7"] [tOther]).txs = [tOther].erase tOther
    ∧ (delete_all_transactions 1 [tOther]).txs = [] :=
  ⟨(c1_delete_unscoped.2.1 1 "7" [] [tOther] 7 (by decide)).1 tOther (by decide),
    (c1_delete_unscoped.2.2 1 [tOther] (by decide)).1⟩

/-! ### Summary helpers (shared by C4 and C8) -/

/-- Helper: folding `pyAdd` from a finite start over finite values stays
finite and adds the rational values. -/
theorem foldl_pyAdd_num (l : List PyDec) :
    ∀ a : ℚ, (∀ x ∈ l, x.isFinite = true) →
      l.foldl pyAdd (.num a) = .num (a + (l.map PyDec.toRat).sum) := by
  induction l with
  | nil => intro a _; simp
  | cons x xs ih =>
    intro a h
    obtain ⟨q, rfl⟩ : ∃ q, x = PyDec.num q := by
      cases x with
      | num q => exact ⟨q, rfl⟩
      | nan => exact absurd (h _ (List.mem_cons_self _ _)) (by simp [PyDec.isFinite])
      | inf b => exact absurd (h _ (List.mem_cons_self _ _)) (by simp [PyDec.isFinite])
    have := ih (a + q) (fun y hy => h y (List.mem_cons_of_mem _ hy))
    simpa [pyAdd, PyDec.toRat, add_assoc] using this

/-- Helper: `sum` over finite Decimals equals the rational sum. -/
theorem pySum_finite (l : List PyDec) (h : ∀ x ∈ l, x.isFinite = true) :
    pySum l = .num ((l.map PyDec.toRat).sum) := by
  simpa using foldl_pyAdd_num l 0 h

/-- Helper: subtraction of finite Decimals. -/
theorem pySub_num (a b : ℚ) : pySub (.num a) (.num b) = .num (a - b) := by
  simp [pySub, pyAdd, pyNeg, sub_eq_add_neg]

/-- Helper: the code's `total_income` over a finite-amount store is the
spec-side rational total. -/
theorem total_income_finite (ts : List Transaction)
    (h : ∀ t ∈ ts, t.amount.isFinite = true) :
    total_income ts = .num (specTotalIncome ts) := by
  unfold total_income specTotalIncome
  rw [pySum_finite]
  · rw [List.map_map]
    rfl
  · intro x hx
    obtain ⟨t, ht, rfl⟩ := List.mem_map.mp hx
    exact h t (List.mem_of_mem_filter ht)

/-- Helper: the code's `total_expenses` over a finite-amount store is the
spec-side rational total. -/
theorem total_expenses_finite (ts : List Transaction)
    (h : ∀ t ∈ ts, t.amount.isFinite = true) :
    total_expenses ts = .num (specTotalExpenses ts) := by
  unfold total_expenses specTotalExpenses
  rw [pySum_finite]
  · rw [List.map_map]
    rfl
  · intro x hx
    obtain ⟨t, ht, rfl⟩ := List.mem_map.mp hx
    exact h t (List.mem_of_mem_filter ht)

/-- Helper: the code's `balance` over a finite-amount store is the
spec-side difference of totals. -/
theorem balance_finite (ts : List Transaction)
    (h : ∀ t ∈ ts, t.amount.isFinite = true) :
    balance ts = .num (specTotalIncome ts - specTotalExpenses ts) := by
  unfold balance
  rw [total_income_finite ts h, total_expenses_finite ts h, pySub_num]

/-- Helper: formatting a finite Decimal never fails. -/
theorem format_currency_finite (a : PyDec) (h : a.isFinite = true) :
    ∃ s, format_currency a = some s := by
  cases a with
  | num q => exact ⟨_, rfl⟩
  | nan => exact absurd h (by simp [PyDec.isFinite])
  | inf b => exact absurd h (by simp [PyDec.isFinite])

/-- Helper: everything the summary displays comes from the user's store. -/
theorem summaryRecent_subset (ts : List Transaction) :
    ∀ s ∈ summaryRecent ts, s ∈ ts := by
  intro s hs
  have h1 : s ∈ lastFive ts :=
    ((List.perm_insertionSort dateDesc (lastFive ts)).mem_iff).mp hs
  exact List.drop_subset _ ts h1

/-! ### C4 — summary shows the last five, not the five most recently dated -/

/-- C4 counterexample: in a store whose first transaction is the most
recently dated (date 100, followed by dates 1..5), the summary displays
the transactions with ids 6, 5, 4, 3, 2 — the most recently dated
transaction (id 1, date 100) is not among them even though every displayed
entry is strictly older, falsifying "lists exactly the five most recently
dated transactions". -/
theorem c4_recent_misses_most_recent_cex :
    (summaryRecent (userTxs 1 txsOutOfOrder)).map (fun t => t.id) = [6, 5, 4, 3, 2]
    ∧ (∃ t ∈ userTxs 1 txsOutOfOrder, t.date = 100
        ∧ t ∉ summaryRecent (userTxs 1 txsOutOfOrder)
        ∧ ∀ s ∈ summaryRecent (userTxs 1 txsOutOfOrder), s.date < t.date) := by
  exact ⟨by decide, by decide⟩

/-- C4 amended: the summary displays the last five transactions of the
user's store in store order, re-sorted descending by date.  When the
user's stored list is ascending by date (the order consecutive inserts
produce), these are exactly the five most recently dated ones (all of them
when fewer than five exist) in descending date order; each displayed entry
carries the transaction's id, direction glyph, amount, description and
local date, and the report carries the three totals. -/
theorem c4_recent_of_sorted_store (uid : ℤ) (txs : List Transaction)
    (hsort : (userTxs uid txs).Pairwise (fun a b => a.date ≤ b.date)) :
    (summaryRecent (userTxs uid txs)).length = min 5 (userTxs uid txs).length
    ∧ (summaryRecent (userTxs uid txs)).Pairwise dateDesc
    ∧ (∀ s ∈ summaryRecent (userTxs uid txs), s ∈ userTxs uid txs)
    ∧ (∀ t ∈ userTxs uid txs, t ∉ summaryRecent (userTxs uid txs) →
        ∀ s ∈ summaryRecent (userTxs uid txs), t.date ≤ s.date)
    ∧ (userTxs uid txs ≠ [] → (∀ t ∈ userTxs uid txs, t.amount.isFinite = true) →
        summaryMsgs uid txs = some [.summaryReport (total_income (userTxs uid txs))
          (total_expenses (userTxs uid txs)) (balance (userTxs uid txs))
          ((summaryRecent (userTxs uid txs)).map mkSummaryEntry), .menuPrompt .main]) := by
  have hperm := List.perm_insertionSort dateDesc (lastFive (userTxs uid txs))
  refine ⟨?_, ?_, summaryRecent_subset (userTxs uid txs), ?_, ?_⟩
  · rw [summaryRecent, hperm.length_eq, lastFive, List.length_drop]
    omega
  · simpa [List.Sorted] using List.sorted_insertionSort dateDesc (lastFive (userTxs uid txs))
  · intro t ht hnot s hs
    have hnot5 : t ∉ lastFive (userTxs uid txs) := fun hmem => hnot (hperm.mem_iff.mpr hmem)
    have hs5 : s ∈ lastFive (userTxs uid txs) := hperm.mem_iff.mp hs
    have hsplit := List.take_append_drop ((userTxs uid txs).length - 5) (userTxs uid txs)
    have htake : t ∈ (userTxs uid txs).take ((userTxs uid txs).length - 5) := by
      have := (List.mem_append).mp (hsplit ▸ ht)
      rcases this with h' | h'
      · exact h'
      · exact absurd h' hnot5
    have hpair : List.Pairwise (fun a b => a.date ≤ b.date)
        ((userTxs uid txs).take ((userTxs uid txs).length - 5)
          ++ (userTxs uid txs).drop ((userTxs uid txs).length - 5)) := by
      rw [hsplit]; exact hsort
    exact (List.pairwise_append.mp hpair).2.2 t htake s hs5
  · intro hne hfin
    have hie : (userTxs uid txs).isEmpty = false := by
      simpa [List.isEmpty_iff] using hne
    obtain ⟨s1, hs1⟩ := format_currency_finite (total_income (userTxs uid txs))
      (by rw [total_income_finite _ hfin]; rfl)
    obtain ⟨s2, hs2⟩ := format_currency_finite (total_expenses (userTxs uid txs))
      (by rw [total_expenses_finite _ hfin]; rfl)
    obtain ⟨s3, hs3⟩ := format_currency_finite (balance (userTxs uid txs))
      (by rw [balance_finite _ hfin]; rfl)
    have hall : ((summaryRecent (userTxs uid txs)).all
        (fun t => (format_currency t.amount).isSome)) = true := by
      rw [List.all_eq_true]
      intro t ht
      obtain ⟨s, hss⟩ :=
        format_currency_finite _ (hfin t (summaryRecent_subset (userTxs uid txs) t ht))
      simp [hss]
    simp [summaryMsgs, hie, hs1, hs2, hs3, hall]

/-- C4 witness: the amended theorem applied to a concrete date-ascending
store of six transactions. -/
theorem c4_recent_of_sorted_store_witness :
    (summaryRecent (userTxs 1 txsAscending)).length = min 5 (userTxs 1 txsAscending).length
    ∧ (summaryRecent (userTxs 1 txsAscending)).Pairwise dateDesc :=
  ⟨(c4_recent_of_sorted_store 1 txsAscending (by decide)).1,
    (c4_recent_of_sorted_store 1 txsAscending (by decide)).2.1⟩

/-! ### C8 — balance invariant -/

/-- C8: for every finite-amount store, the summary's reported balance is
total income minus total expenses, where the totals sum the amounts over
the `is_income` partition; the balance can be negative, as on the
all-expense store `[txExpense]`. -/
theorem c8_balance_invariant (ts : List Transaction)
    (h : ∀ t ∈ ts, t.amount.isFinite = true) :
    balance ts = .num (specTotalIncome ts - specTotalExpenses ts)
    ∧ total_income ts = .num (specTotalIncome ts)
    ∧ total_expenses ts = .num (specTotalExpenses ts)
    ∧ (∀ t ∈ [txExpense], t.is_income = false)
    ∧ balance [txExpense] = .num (-5000)
    ∧ ((-5000 : ℚ) < 0) := by
  refine ⟨balance_finite ts h, total_income_finite ts h, total_expenses_finite ts h,
    by decide, ?_, by norm_num⟩
  have hb := balance_finite [txExpense] (by decide)
  rw [hb]
  norm_num [specTotalIncome, specTotalExpenses, txExpense, PyDec.toRat]

/-- C8 witness: the invariant applied to the concrete one-element store
`[tOther]`. -/
theorem c8_balance_invariant_witness :
    balance [tOther] = .num (specTotalIncome [tOther] - specTotalExpenses [tOther]) :=
  (c8_balance_invariant [tOther] (by decide)).1

/-! ### C6 — duplicate debtor code: create fails, nothing overwritten -/

/-- C6: confirming a debt whose scratch code already exists in the Debt
store makes the commit violate the `debtor_id` unique constraint: the
handler logs the error, replies with the generic failure message, persists
nothing (the store is unchanged, in particular nothing is overwritten),
and ends the flow at the debtors menu in the Idle state. -/
theorem c6_duplicate_code_fails (text : String) (st : ConvState) (ud : Scratch) (env : Env)
    (txs : List Transaction) (debts : List Debt) (code name : String) (amt : PyDec)
    (haff : isAffirm text = true)
    (hid : ud.debtor_id = some code) (hname : ud.debtor_name = some name)
    (hamt : ud.debt_amount = some amt)
    (hdup : code ∈ debts.map (fun d => d.debtor_id)) :
    confirm_debt text st ud env txs debts
      = { state := .idle, ud := ud, txs := txs, debts := debts,
          msgs := [.debtSaveError, .menuPrompt .debtors], logs := ["Error saving debt"] } := by
  have hany : (debts.any (fun d => d.debtor_id = code)) = true := by
    rw [List.any_eq_true]
    obtain ⟨d, hd, rfl⟩ := List.mem_map.mp hdup
    exact ⟨d, hd, by simp⟩
  unfold confirm_debt
  simp [haff, hid, hname, hamt, hany]

/-- C6 witness: confirming code `a11` against a store already holding
`debtA11`. -/
theorem c6_duplicate_code_fails_witness :
    confirm_debt "بله" .debtConfirm udDebtConfirm env0 [] [debtA11]
      = { state := .idle, ud := udDebtConfirm, txs := [], debts := [debtA11],
          msgs := [.debtSaveError, .menuPrompt .debtors], logs := ["Error saving debt"] } :=
  c6_duplicate_code_fails "بله" .debtConfirm udDebtConfirm env0 [] [debtA11] "a11" "Ali"
    (.num 9000) (by decide) (by decide) (by decide) (by decide) (by decide)

/-! ### C7 — confirmation persists, but the reply does not show the id -/

set_option maxRecDepth 4096 in
/-- C7 counterexample: an affirmative confirmation persists the transaction
with id 42, but the success reply's f-string (source lines 310-315)
interpolates only type, formatted amount, description and solar date — the
rendered reply nowhere contains the created id 42, falsifying "shows the
created record with its id". -/
theorem c7_reply_missing_id_cex :
    (confirm_transaction "بله" .confirm udConfirm env0 [] []).txs
      = [{ id := 42, amount := .num 5000, description := "lunch", is_income := false,
           date := 10, user_id := 1 }]
    ∧ (confirm_transaction "بله" .confirm udConfirm env0 [] []).msgs
      = [.txSaved false "5,000 تومان" "lunch" "solar 10", .menuPrompt .main]
    ∧ ¬ containsSub (toString 42) (renderTxSaved false "5,000 تومان" "lunch" "solar 10") := by
  exact ⟨by decide, by decide, by decide⟩

/-- C7 amended: on an affirmative token (case-insensitive member of the
fixed set), exactly one transaction is appended with the scratch amount,
description and direction and `date = now`, and the reply shows the
transaction type, formatted amount, description and local-calendar date
(but not the id) before returning to Idle; on any other input nothing is
persisted, the cancellation message is shown, and the session returns to
Idle. -/
theorem c7_confirm_behavior (text : String) (st : ConvState) (ud : Scratch) (env : Env)
    (txs : List Transaction) (debts : List Debt) (amt : PyDec) (desc : String) (inc : Bool)
    (hamt : ud.amount = some amt) (hdesc : ud.description = some desc)
    (hinc : ud.is_income = some inc) (hfin : amt.isFinite = true) :
    (isAffirm text = true →
      ∃ s, format_currency amt = some s ∧
        confirm_transaction text st ud env txs debts
          = { state := .idle, ud := ud,
              txs := txs ++ [{ id := env.nextTid, amount := amt, description := desc,
                                 is_income := inc, date := env.now, user_id := env.uid }],
              debts := debts,
              msgs := [.txSaved inc s desc (get_solar_date env.now), .menuPrompt .main] })
    ∧ (isAffirm text = false →
      confirm_transaction text st ud env txs debts
        = { state := .idle, ud := ud, txs := txs, debts := debts,
            msgs := [.txCancelled, .menuPrompt .main] }) := by
  obtain ⟨s, hs⟩ := format_currency_finite amt hfin
  constructor
  · intro haff
    refine ⟨s, hs, ?_⟩
    unfold confirm_transaction
    simp [haff, hamt, hdesc, hinc, hs]
  · intro hnaff
    unfold confirm_transaction
    simp [hnaff]

/-- C7 witness: the amended theorem applied at the concrete confirmation
of a 5000-Toman expense. -/
theorem c7_confirm_behavior_witness :
    ∃ s, format_currency (.num 5000) = some s ∧
      confirm_transaction "بله" .confirm udConfirm env0 [] []
        = { state := .idle, ud := udConfirm,
            txs := [] ++ [{ id := env0.nextTid, amount := .num 5000, description := "lunch",
                            is_income := false, date := env0.now, user_id := env0.uid }],
            debts := [],
            msgs := [.txSaved false s "lunch" (get_solar_date env0.now), .menuPrompt .main] } :=
  (c7_confirm_behavior "بله" .confirm udConfirm env0 [] [] (.num 5000) "lunch" false
    (by decide) (by decide) (by decide) (by decide)).1 (by decide)

/-! ### C9 — debt deletion by trimmed code, scoped to the requester -/

/-- C9: on a non-cancellation input in the awaiting-deletion-code state,
the text is stripped of surrounding whitespace and looked up as a debtor
code filtered by both code and requesting user; a found debt is removed
from the store and reported, otherwise the store is unchanged and
not-found is reported; both branches end in Idle at the debtors menu. -/
theorem c9_delete_debt_behavior (text : String) (st : ConvState) (ud : Scratch) (env : Env)
    (txs : List Transaction) (debts : List Debt) (h : isCancel text = false) :
    (∀ d, debts.find? (fun d' => d'.debtor_id = pyStrip text ∧ d'.user_id = env.uid) = some d →
      ((delete_debt text st ud env txs debts).debts = debts.erase d
        ∧ (delete_debt text st ud env txs debts).state = .idle
        ∧ (delete_debt text st ud env txs debts).txs = txs
        ∧ ∀ s, format_currency d.amount = some s →
            (delete_debt text st ud env txs debts).msgs
              = [.debtDeleted (pyStrip text) d.debtor_name s (get_solar_date d.date),
                 .menuPrompt .debtors]))
    ∧ (debts.find? (fun d' => d'.debtor_id = pyStrip text ∧ d'.user_id = env.uid) = none →
      delete_debt text st ud env txs debts
        = { state := .idle, ud := ud, txs := txs, debts := debts,
            msgs := [.debtNotFound, .menuPrompt .debtors] }) := by
  constructor
  · intro d hd
    have e1 : delete_debt text st ud env txs debts
        = match format_currency d.amount with
          | some amountText =>
            { state := .idle, ud := ud, txs := txs, debts := debts.erase d,
              msgs := [.debtDeleted (pyStrip text) d.debtor_name amountText
                (get_solar_date d.date), .menuPrompt .debtors] }
          | none =>
            { state := .idle, ud := ud, txs := txs, debts := debts.erase d,
              msgs := [.debtDeleteError, .menuPrompt .debtors],
              logs := ["Error deleting debt"] } := by
      unfold delete_debt
      rw [if_neg (by simp [h])]
      (try dsimp only)
      rw [hd]
    cases hf : format_currency d.amount with
    | some s' =>
      rw [hf] at e1
      refine ⟨by rw [e1], by rw [e1], by rw [e1], ?_⟩
      intro s hs
      obtain rfl : s' = s := by injection hs
      rw [e1]
    | none =>
      rw [hf] at e1
      refine ⟨by rw [e1], by rw [e1], by rw [e1], ?_⟩
      intro s hs
      exact absurd hs (by simp)
  · intro hd
    unfold delete_debt
    rw [if_neg (by simp [h])]
    (try dsimp only)
    rw [hd]

/-- C9 witness: deleting code `" a12 "` (with surrounding whitespace) from
a store holding `debtA12`, owned by the requesting user. -/
theorem c9_delete_debt_behavior_witness :
    (delete_debt " a12 " .deleteDebt Scratch.empty env0 [] [debtA12]).debts
        = [debtA12].erase debtA12
    ∧ (delete_debt " a12 " .deleteDebt Scratch.empty env0 [] [debtA12]).state = .idle :=
  ⟨((c9_delete_debt_behavior " a12 " .deleteDebt Scratch.empty env0 [] [debtA12]
      (by decide)).1 debtA12 (by decide)).1,
    ((c9_delete_debt_behavior " a12 " .deleteDebt Scratch.empty env0 [] [debtA12]
      (by decide)).1 debtA12 (by decide)).2.1⟩

end Hesabdari
